import Mathlib

set_option maxRecDepth 10000

/-!
Shallow embedding of the hybrid response-routing policy of the ai-chatbot
repository (src/lib/hybrid-chat-service.ts), together with the two backend
client wrappers it calls (src/lib/api.ts for the dataset backend and
src/lib/gemini-api.ts for the generative backend).

Modelling conventions:
* Machine clock fields of the TypeScript records (`response_time`,
  `timestamp`) are wall-clock observations and are left out of the
  embedding; no claim mentions them.
* `Math.random().toString(36).substring(7)` (the freshly generated session
  token) is modelled as an explicit parameter `fresh : String`.
* A backend call, as observed by the hybrid service, either throws an
  exception (`CallOutcome.thrown`) or returns an `ApiResp` envelope
  (`CallOutcome.returned`).  The environment `Env` fixes the outcome of
  each of the up-to-three call sites of `sendMessage`.
* Numeric confidence scores are modelled as integers; no claim computes
  with them, they are only passed through.
-/

namespace HybridChat

/-- The `status` field of the TypeScript `ApiResponse` envelope:
`"success" | "error"`. -/
inductive Status where
  | success
  | error
deriving DecidableEq

/-- The `source` field of `HybridChatResponse`: `"dataset" | "gemini"`
(the spec calls the gemini source `generative`). -/
inductive Source where
  | dataset
  | gemini
deriving DecidableEq

/-- The `model_type` enum: `"basic" | "enhanced"`. -/
inductive ModelType where
  | basic
  | enhanced
deriving DecidableEq

/-- Payload of a successful generative (Gemini) chat call, as used by the
router: only the `response` text is read. -/
structure GeminiData where
  response : String
deriving DecidableEq

/-- Payload of a successful dataset chat call: the router reads `response`
and the optional `confidence` score. -/
structure DatasetData where
  response : String
  confidence : Option Int
deriving DecidableEq

/-- The TypeScript `ApiResponse<T>` envelope restricted to the fields the
router inspects: `status` and the optional `data`. -/
structure ApiResp (α : Type) where
  status : Status
  data : Option α
deriving DecidableEq

/-- `HybridChatRequest`: `message`, optional `session_id`, optional
`use_dataset`, optional `model_type`.  Optionality of the TypeScript
fields is made explicit with `Option`. -/
structure HybridChatRequest where
  message : String
  session_id : Option String
  use_dataset : Option Bool
  model_type : Option ModelType
deriving DecidableEq

/-- `HybridChatResponse` restricted to the non-clock fields: response
text, source, session id, optional confidence. -/
structure HybridChatResponse where
  response : String
  source : Source
  session_id : String
  confidence : Option Int
deriving DecidableEq

/-- The envelope `ApiResponse<HybridChatResponse>` returned by
`sendMessage` (clock fields omitted). -/
structure HybridResult where
  status : Status
  data : Option HybridChatResponse
deriving DecidableEq

/-- Outcome of one backend call as observed by the hybrid service: the
call either threw, or returned an envelope. -/
inductive CallOutcome (α : Type) where
  | thrown
  | returned (r : ApiResp α)
deriving DecidableEq

/-- Environment of one `sendMessage` run: the outcome of the first
(inner-try) Gemini call, of the dataset call and of the final-fallback
Gemini call, for the call sites that are actually reached. -/
structure Env where
  gemini1 : CallOutcome GeminiData
  dataset : CallOutcome DatasetData
  gemini2 : CallOutcome GeminiData
deriving DecidableEq

/-- One issued backend network call, recording the backend and the
arguments the router passed.  The generative client is sent
`{ message, session_id }`; the dataset client is additionally sent the
`model_type`. -/
inductive Call where
  | gemini (message sessionId : String)
  | dataset (message sessionId : String) (modelType : ModelType)
deriving DecidableEq

/-- Which of the two backends a call went to. -/
inductive Backend where
  | gemini
  | dataset
deriving DecidableEq

/-- Backend of a recorded call. -/
def Call.backend : Call → Backend
  | .gemini _ _ => Backend.gemini
  | .dataset _ _ _ => Backend.dataset

/-- The fixed support keyword list of
`HybridChatService.isCustomerSupportQuery`. -/
def supportKeywords : List String :=
  ["help", "support", "problem", "issue", "error", "bug", "complaint",
   "refund", "return", "cancel", "billing", "payment", "account", "login",
   "password", "reset", "contact", "phone", "email"]

/-- JavaScript `String.prototype.toLowerCase`, modelled characterwise
(extensionally the same as the byte-level `String.toLower` of the Lean
core library, but written over the character list so that it reduces). -/
def toLowerCase (s : String) : String :=
  ⟨s.data.map Char.toLower⟩

/-- Substring containment, modelling JavaScript
`String.prototype.includes`: some position of `s` starts an occurrence of
`pat`. -/
def strContains (s pat : String) : Bool :=
  (List.range (s.data.length + 1)).any fun i =>
    ((s.data.drop i).take pat.data.length) == pat.data

/-- `HybridChatService.isCustomerSupportQuery`: lowercase the message and
test it against every support keyword. -/
def isCustomerSupportQuery (message : String) : Bool :=
  supportKeywords.any fun keyword => strContains (toLowerCase message) keyword

/-- `request.session_id || Math.random().toString(36).substring(7)` —
the empty string is falsy in JavaScript, so it is replaced by the fresh
token just as an absent field is. -/
def sessionIdOf (req : HybridChatRequest) (fresh : String) : String :=
  match req.session_id with
  | some s => if s = "" then fresh else s
  | none => fresh

/-- Truthiness of `request.use_dataset` (an absent field is falsy). -/
def useDataset (req : HybridChatRequest) : Bool :=
  req.use_dataset == some true

/-- `request.model_type || "enhanced"`: the value forwarded to the
dataset backend. -/
def modelTypeOf (req : HybridChatRequest) : ModelType :=
  req.model_type.getD ModelType.enhanced

/-- The inner-try Gemini attempt (lines 28-50 of
hybrid-chat-service.ts): a thrown call is caught and yields nothing; a
returned envelope yields a routed response exactly when
`status === "success" && data`. -/
def tryGemini (sid : String) (out : CallOutcome GeminiData) :
    Option HybridChatResponse :=
  match out with
  | .thrown => none
  | .returned g =>
    match g.status, g.data with
    | Status.success, some d => some ⟨d.response, Source.gemini, sid, none⟩
    | _, _ => none

/-- The dataset attempt (lines 55-79): a thrown call is caught and yields
nothing; a returned envelope yields a routed response carrying the
backend-supplied confidence exactly when `status === "success" && data`. -/
def tryDataset (sid : String) (out : CallOutcome DatasetData) :
    Option HybridChatResponse :=
  match out with
  | .thrown => none
  | .returned r =>
    match r.status, r.data with
    | Status.success, some d =>
        some ⟨d.response, Source.dataset, sid, d.confidence⟩
    | _, _ => none

/-- The guidance text of the synthetic response returned when the final
Gemini fallback also yields no usable answer (line 107 of
hybrid-chat-service.ts). -/
def guidanceText : String :=
  "I" ++ (Char.ofNat 39).toString ++
  "m having trouble connecting to my AI services right now. Please check that your Gemini API key is properly configured in Project Settings → Environment Variables. You can get a free API key from Google AI Studio (aistudio.google.com)."

/-- The final Gemini fallback (lines 82-114).  This call site is *not*
wrapped in an inner try/catch: a thrown call reaches the outer catch
(lines 115-122) and produces the `status = error` envelope with no data;
a returned envelope produces either the Gemini answer or the synthetic
guidance response, both with `status = success`. -/
def finalGemini (sid : String) (out : CallOutcome GeminiData) : HybridResult :=
  match out with
  | .thrown => ⟨Status.error, none⟩
  | .returned g =>
    match g.status, g.data with
    | Status.success, some d =>
        ⟨Status.success, some ⟨d.response, Source.gemini, sid, none⟩⟩
    | _, _ =>
        ⟨Status.success, some ⟨guidanceText, Source.gemini, sid, none⟩⟩

/-- Lines 53-114 of `sendMessage`: the dataset attempt guarded by
`request.use_dataset || isCustomerSupportQuery(request.message)`, followed
by the unconditional final Gemini fallback.  Returns the result and the
list of network calls issued by this stage, in order. -/
def step2 (req : HybridChatRequest) (sid : String) (env : Env) :
    HybridResult × List Call :=
  if useDataset req || isCustomerSupportQuery req.message then
    match tryDataset sid env.dataset with
    | some resp =>
        (⟨Status.success, some resp⟩,
         [Call.dataset req.message sid (modelTypeOf req)])
    | none =>
        (finalGemini sid env.gemini2,
         [Call.dataset req.message sid (modelTypeOf req),
          Call.gemini req.message sid])
  else
    (finalGemini sid env.gemini2, [Call.gemini req.message sid])

/-- `HybridChatService.sendMessage` (the spec's `route`): computes the
session id, attempts Gemini first when
`!request.use_dataset || !isCustomerSupportQuery(request.message)`, and
otherwise (and on a failed first attempt) proceeds to the dataset /
final-fallback stage.  Returns the result envelope together with the
ordered list of backend network calls issued. -/
def sendMessage (req : HybridChatRequest) (fresh : String) (env : Env) :
    HybridResult × List Call :=
  let sid := sessionIdOf req fresh
  if !useDataset req || !isCustomerSupportQuery req.message then
    match tryGemini sid env.gemini1 with
    | some resp => (⟨Status.success, some resp⟩, [Call.gemini req.message sid])
    | none =>
        let rest := step2 req sid env
        (rest.1, Call.gemini req.message sid :: rest.2)
  else
    step2 req sid env

/-- Outcome of the `fetch` + `res.json()` pair inside the generative
client `GeminiApiService.sendMessage` (src/lib/gemini-api.ts): either the
pair threw, or it produced an envelope. -/
inductive FetchResult (α : Type) where
  | thrown
  | ok (v : α)
deriving DecidableEq

/-- `GeminiApiService.sendMessage`: every exception is caught and turned
into an in-band `status = "error"` envelope, so the client never throws. -/
def geminiClientSend (f : FetchResult (ApiResp GeminiData)) :
    ApiResp GeminiData :=
  match f with
  | .thrown => ⟨Status.error, none⟩
  | .ok v => v

/-- Outcome of the HTTP exchange inside `ApiService.makeRequest`
(src/lib/api.ts): the fetch threw, or a response arrived with an `ok`
flag and a body that parses (`some`) or throws while parsing (`none`). -/
inductive HttpOutcome (α : Type) where
  | netThrow
  | resp (ok : Bool) (json : Option α)
deriving DecidableEq

/-- `ApiService.makeRequest` as observed by the hybrid service: network
errors, non-ok statuses and body-parse failures are (re)thrown, and an ok
response yields a `status = "success"` envelope wrapping the parsed body. -/
def makeRequest (h : HttpOutcome α) : CallOutcome α :=
  match h with
  | .netThrow => CallOutcome.thrown
  | .resp true (some d) => CallOutcome.returned ⟨Status.success, some d⟩
  | .resp true none => CallOutcome.thrown
  | .resp false _ => CallOutcome.thrown

/-- The environment `sendMessage` actually runs against in the program:
both Gemini call sites go through `geminiClientSend` (which never
throws) and the dataset call site goes through `makeRequest`. -/
def envOf (f1 : FetchResult (ApiResp GeminiData))
    (hd : HttpOutcome DatasetData)
    (f2 : FetchResult (ApiResp GeminiData)) : Env :=
  ⟨CallOutcome.returned (geminiClientSend f1),
   makeRequest hd,
   CallOutcome.returned (geminiClientSend f2)⟩

/-- `sendMessage` composed with the two in-repo backend clients: the
hybrid routing policy as the program actually executes it. -/
def sendMessageProgram (req : HybridChatRequest) (fresh : String)
    (f1 : FetchResult (ApiResp GeminiData)) (hd : HttpOutcome DatasetData)
    (f2 : FetchResult (ApiResp GeminiData)) : HybridResult × List Call :=
  sendMessage req fresh (envOf f1 hd f2)

/-- A backend envelope counts as a failed answer for the router when it
is not a success envelope carrying data
(`!(r.status === "success" && r.data)`). -/
def respFails (r : ApiResp α) : Bool :=
  !(r.status == Status.success && r.data.isSome)

/-- The dataset backend call fails: the client threw, or (vacuously for
`makeRequest`, which only ever returns success envelopes) the envelope
was not a success with data. -/
def datasetFails (hd : HttpOutcome DatasetData) : Bool :=
  match makeRequest hd with
  | .thrown => true
  | .returned r => respFails r

/-- A settled promise of `Promise.allSettled`: fulfilled with a value or
rejected. -/
inductive Settled (α : Type) where
  | fulfilled (value : α)
  | rejected
deriving DecidableEq

/-- `health.status === "fulfilled" && health.value.status === "success"`:
the per-backend probe success flag computed by `healthCheck`. -/
def probeOk (p : Settled (ApiResp Unit)) : Bool :=
  match p with
  | .fulfilled v => v.status == Status.success
  | .rejected => false

/-- The `data` object of the `healthCheck` result. -/
structure HealthData where
  dataset_backend : Bool
  gemini_api : Bool
  hybrid_mode : Bool
deriving DecidableEq

/-- The `healthCheck` result envelope (clock field omitted). -/
structure HealthResult where
  status : Status
  data : HealthData
  message : String
deriving DecidableEq

/-- `HybridChatService.healthCheck` (lines 152-178), as a function of the
two settled probe outcomes delivered by `Promise.allSettled`. -/
def healthCheck (d g : Settled (ApiResp Unit)) : HealthResult :=
  let datasetStatus := probeOk d
  let geminiStatus := probeOk g
  { status := if datasetStatus || geminiStatus then Status.success else Status.error
    data := ⟨datasetStatus, geminiStatus, datasetStatus && geminiStatus⟩
    message :=
      if datasetStatus && geminiStatus then "Both services available"
      else if datasetStatus then "Dataset backend only"
      else if geminiStatus then "Gemini API only"
      else "No services available" }

/-! ### Helper lemmas -/

/-- `strContains` agrees with the mathematical notion of substring
occurrence: some decomposition of `s` exhibits `pat` in the middle. -/
theorem strContains_iff (s pat : String) :
    strContains s pat = true ↔
      ∃ a b : List Char, s.data = a ++ pat.data ++ b := by
  unfold strContains
  rw [List.any_eq_true]
  constructor
  · rintro ⟨i, _, hmatch⟩
    rw [beq_iff_eq] at hmatch
    refine ⟨s.data.take i, (s.data.drop i).drop pat.data.length, ?_⟩
    conv_lhs => rw [← List.take_append_drop i s.data,
      ← List.take_append_drop pat.data.length (s.data.drop i)]
    rw [hmatch, List.append_assoc]
  · rintro ⟨a, b, hab⟩
    refine ⟨a.length, ?_, ?_⟩
    · rw [List.mem_range]
      have hlen : s.data.length = (a ++ pat.data ++ b).length := by rw [hab]
      simp only [List.length_append] at hlen
      omega
    · rw [beq_iff_eq, hab, List.append_assoc, List.drop_left, List.take_left]

/-- A successful first-try Gemini answer carries source `gemini`, the
router's session id and no confidence. -/
theorem tryGemini_some {sid : String} {out : CallOutcome GeminiData}
    {resp : HybridChatResponse} (h : tryGemini sid out = some resp) :
    resp.source = Source.gemini ∧ resp.session_id = sid ∧
      resp.confidence = none := by
  cases out with
  | thrown => simp [tryGemini] at h
  | returned g =>
    rcases g with ⟨st, da⟩
    cases st <;> cases da <;> simp [tryGemini] at h
    subst h
    exact ⟨rfl, rfl, rfl⟩

/-- A successful dataset answer carries source `dataset`, the router's
session id, and exactly the backend-supplied payload. -/
theorem tryDataset_some {sid : String} {out : CallOutcome DatasetData}
    {resp : HybridChatResponse} (h : tryDataset sid out = some resp) :
    resp.source = Source.dataset ∧ resp.session_id = sid ∧
      ∃ d, out = CallOutcome.returned ⟨Status.success, some d⟩ ∧
        resp.response = d.response ∧ resp.confidence = d.confidence := by
  cases out with
  | thrown => simp [tryDataset] at h
  | returned r =>
    rcases r with ⟨st, da⟩
    cases st <;> cases da <;> simp [tryDataset] at h
    subst h
    exact ⟨rfl, rfl, _, rfl, rfl, rfl⟩

/-- Whatever data the final-fallback stage returns carries source
`gemini`, the router's session id and no confidence. -/
theorem finalGemini_data {sid : String} {out : CallOutcome GeminiData}
    {resp : HybridChatResponse}
    (h : (finalGemini sid out).data = some resp) :
    resp.source = Source.gemini ∧ resp.session_id = sid ∧
      resp.confidence = none := by
  cases out with
  | thrown => simp [finalGemini] at h
  | returned g =>
    rcases g with ⟨st, da⟩
    cases st <;> cases da <;> simp [finalGemini] at h <;> subst h <;>
      exact ⟨rfl, rfl, rfl⟩

/-- When the final Gemini call returns an envelope (rather than
throwing), the final-fallback stage always produces a success result. -/
theorem finalGemini_returned_status (sid : String) (g : ApiResp GeminiData) :
    (finalGemini sid (CallOutcome.returned g)).status = Status.success := by
  rcases g with ⟨st, da⟩
  cases st <;> cases da <;> rfl

/-- Every `sendMessage` run ends in one of three ways: a successful
first-try Gemini answer, a successful dataset answer, or the result of
the final Gemini fallback stage. -/
theorem sendMessage_result_cases (req : HybridChatRequest) (fresh : String)
    (env : Env) :
    (∃ resp, tryGemini (sessionIdOf req fresh) env.gemini1 = some resp ∧
      (sendMessage req fresh env).1 = ⟨Status.success, some resp⟩) ∨
    (∃ resp, tryDataset (sessionIdOf req fresh) env.dataset = some resp ∧
      (sendMessage req fresh env).1 = ⟨Status.success, some resp⟩) ∨
    (sendMessage req fresh env).1 =
      finalGemini (sessionIdOf req fresh) env.gemini2 := by
  cases hu : useDataset req <;> cases hs : isCustomerSupportQuery req.message <;>
    cases hG : tryGemini (sessionIdOf req fresh) env.gemini1 <;>
    cases hD : tryDataset (sessionIdOf req fresh) env.dataset <;>
      simp [sendMessage, step2, hu, hs, hG, hD]

/-- Any data returned by `sendMessage` carries the router's session id;
generative answers carry no confidence; dataset answers replay the
backend-supplied payload. -/
theorem sendMessage_data_char (req : HybridChatRequest) (fresh : String)
    (env : Env) (resp : HybridChatResponse)
    (h : (sendMessage req fresh env).1.data = some resp) :
    resp.session_id = sessionIdOf req fresh ∧
    (resp.source = Source.gemini → resp.confidence = none) ∧
    (resp.source = Source.dataset →
      ∃ d, env.dataset = CallOutcome.returned ⟨Status.success, some d⟩ ∧
        resp.response = d.response ∧ resp.confidence = d.confidence) := by
  rcases sendMessage_result_cases req fresh env with
    ⟨r, hG, hEq⟩ | ⟨r, hD, hEq⟩ | hEq
  · rw [hEq] at h
    simp only [Option.some.injEq] at h
    subst h
    obtain ⟨h1, h2, h3⟩ := tryGemini_some hG
    exact ⟨h2, fun _ => h3, fun hsrc => by simp [h1] at hsrc⟩
  · rw [hEq] at h
    simp only [Option.some.injEq] at h
    subst h
    obtain ⟨h1, h2, d, h3, h4, h5⟩ := tryDataset_some hD
    exact ⟨h2, fun hsrc => by simp [h1] at hsrc, fun _ => ⟨d, h3, h4, h5⟩⟩
  · rw [hEq] at h
    obtain ⟨h1, h2, h3⟩ := finalGemini_data h
    exact ⟨h2, fun _ => h3, fun hsrc => by simp [h1] at hsrc⟩

/-! ### Claim theorems -/

/-- C1: the router composed with its two in-repo backend clients never
returns an error result at all — the generative client converts every
transport failure into an in-band error envelope, so the final fallback
cannot throw and the outer catch is unreachable.  A fortiori, `route`
never returns an error to the caller without having attempted both the
generative and the dataset backend. -/
theorem route_status_always_success_program (req : HybridChatRequest)
    (fresh : String) (f1 : FetchResult (ApiResp GeminiData))
    (hd : HttpOutcome DatasetData) (f2 : FetchResult (ApiResp GeminiData)) :
    (sendMessageProgram req fresh f1 hd f2).1.status = Status.success := by
  rcases sendMessage_result_cases req fresh (envOf f1 hd f2) with
    ⟨r, _, hEq⟩ | ⟨r, _, hEq⟩ | hEq
  · rw [sendMessageProgram, hEq]
  · rw [sendMessageProgram, hEq]
  · rw [sendMessageProgram, hEq]
    exact finalGemini_returned_status _ (geminiClientSend f2)

/-- C2 (counterexample): a single route call can issue three backend
network calls: with `use_dataset = true` and a non-support message
("hello"), a failed Gemini first try is followed by a failed dataset
attempt and then the final Gemini fallback. -/
theorem route_three_calls_counterexample :
    (sendMessage ⟨"hello", some "sid", some true, none⟩ "f"
      ⟨CallOutcome.returned ⟨Status.error, none⟩, CallOutcome.thrown,
       CallOutcome.returned ⟨Status.success, some ⟨"ok"⟩⟩⟩).2.length = 3 := by
  decide

/-- C2 (amended): a route call issues at most three backend calls — the
dataset backend at most once and the generative backend at most twice —
and at most two when `use_dataset` agrees with the support
classification. -/
theorem route_call_budget (req : HybridChatRequest) (fresh : String)
    (env : Env) :
    (sendMessage req fresh env).2.length ≤
      (if useDataset req == isCustomerSupportQuery req.message then 2 else 3) ∧
    ((sendMessage req fresh env).2.map Call.backend).count Backend.dataset ≤ 1 ∧
    ((sendMessage req fresh env).2.map Call.backend).count Backend.gemini ≤ 2 := by
  cases hu : useDataset req <;> cases hs : isCustomerSupportQuery req.message <;>
    cases hG : tryGemini (sessionIdOf req fresh) env.gemini1 <;>
    cases hD : tryDataset (sessionIdOf req fresh) env.dataset <;>
      simp [sendMessage, step2, hu, hs, hG, hD, Call.backend, List.count_cons]

/-- C3: when every backend attempt fails — the generative fetches throw
or come back as in-band error envelopes, and the dataset call throws or
yields no usable envelope — route returns a success envelope whose data
is the credential-configuration guidance text with source `gemini`. -/
theorem route_both_backends_fail_guidance (req : HybridChatRequest)
    (fresh : String) (f1 : FetchResult (ApiResp GeminiData))
    (hd : HttpOutcome DatasetData) (f2 : FetchResult (ApiResp GeminiData))
    (h1 : respFails (geminiClientSend f1) = true)
    (h2 : datasetFails hd = true)
    (h3 : respFails (geminiClientSend f2) = true) :
    (sendMessageProgram req fresh f1 hd f2).1 =
      ⟨Status.success,
       some ⟨guidanceText, Source.gemini, sessionIdOf req fresh, none⟩⟩ := by
  have hg1 : ∀ sid, tryGemini sid (CallOutcome.returned (geminiClientSend f1)) = none := by
    intro sid
    rcases hgc : geminiClientSend f1 with ⟨st, da⟩
    rw [hgc] at h1
    cases st <;> cases da <;> simp [respFails] at h1 <;> simp [tryGemini]
  have hg2 : ∀ sid, finalGemini sid (CallOutcome.returned (geminiClientSend f2)) =
      ⟨Status.success, some ⟨guidanceText, Source.gemini, sid, none⟩⟩ := by
    intro sid
    rcases hgc : geminiClientSend f2 with ⟨st, da⟩
    rw [hgc] at h3
    cases st <;> cases da <;> simp [respFails] at h3 <;> simp [finalGemini]
  have hdn : ∀ sid, tryDataset sid (makeRequest hd) = none := by
    intro sid
    unfold datasetFails at h2
    cases hmk : makeRequest hd with
    | thrown => simp [tryDataset]
    | returned r =>
      rw [hmk] at h2
      rcases r with ⟨st, da⟩
      cases st <;> cases da <;> simp [respFails] at h2 <;> simp [tryDataset]
  cases hu : useDataset req <;> cases hs : isCustomerSupportQuery req.message <;>
    simp [sendMessageProgram, sendMessage, step2, envOf, hu, hs, hg1, hg2, hdn]

/-- C3 (witness): with both fetches throwing and the dataset HTTP call
failing, the concrete run returns the guidance response. -/
theorem route_both_backends_fail_guidance_witness :
    respFails (geminiClientSend FetchResult.thrown) = true ∧
    datasetFails HttpOutcome.netThrow = true ∧
    (sendMessageProgram ⟨"hi", none, none, none⟩ "abc" FetchResult.thrown
      HttpOutcome.netThrow FetchResult.thrown).1 =
      ⟨Status.success,
       some ⟨guidanceText, Source.gemini,
         sessionIdOf ⟨"hi", none, none, none⟩ "abc", none⟩⟩ :=
  ⟨by decide, by decide,
   route_both_backends_fail_guidance ⟨"hi", none, none, none⟩ "abc"
     FetchResult.thrown HttpOutcome.netThrow FetchResult.thrown
     (by decide) (by decide) (by decide)⟩

/-- C4: the first backend attempted is the dataset backend exactly when
`use_dataset` is true and the message is support-classified; in every
other case the generative backend is attempted first. -/
theorem route_first_attempt_backend (req : HybridChatRequest)
    (fresh : String) (env : Env) :
    ((sendMessage req fresh env).2.map Call.backend).head? =
      some (if useDataset req && isCustomerSupportQuery req.message
        then Backend.dataset else Backend.gemini) := by
  cases hu : useDataset req <;> cases hs : isCustomerSupportQuery req.message <;>
    cases hG : tryGemini (sessionIdOf req fresh) env.gemini1 <;>
    cases hD : tryDataset (sessionIdOf req fresh) env.dataset <;>
      simp [sendMessage, step2, hu, hs, hG, hD, Call.backend]

/-- C5 (counterexample): when the dataset backend answers without a
confidence score, the routed response has source `dataset` and no
confidence field — refuting "confidence is present if and only if
source = dataset". -/
theorem route_dataset_without_confidence_counterexample :
    ((sendMessage ⟨"help", some "sid", some true, none⟩ "f"
      ⟨CallOutcome.thrown,
       CallOutcome.returned ⟨Status.success, some ⟨"answer", none⟩⟩,
       CallOutcome.thrown⟩).1.data.map fun r => (r.source, r.confidence)) =
      some (Source.dataset, none) := by
  decide

/-- C5 (amended): a response carrying a confidence has source `dataset`;
a generative response never carries confidence; and a dataset response
carries exactly the confidence the dataset backend supplied, which may be
absent. -/
theorem route_confidence_provenance (req : HybridChatRequest)
    (fresh : String) (env : Env) (resp : HybridChatResponse)
    (h : (sendMessage req fresh env).1.data = some resp) :
    (resp.confidence.isSome = true → resp.source = Source.dataset) ∧
    (resp.source = Source.gemini → resp.confidence = none) ∧
    (resp.source = Source.dataset →
      ∃ d, env.dataset = CallOutcome.returned ⟨Status.success, some d⟩ ∧
        resp.confidence = d.confidence) := by
  obtain ⟨-, hg, hd⟩ := sendMessage_data_char req fresh env resp h
  refine ⟨?_, hg, fun hs => ?_⟩
  · intro hc
    cases hsrc : resp.source with
    | dataset => rfl
    | gemini => rw [hg hsrc] at hc; cases hc
  · obtain ⟨d, h1, -, h3⟩ := hd hs
    exact ⟨d, h1, h3⟩

/-- C5 (witness): a dataset answer with confidence 7 is routed with
source `dataset` and confidence 7, certified through the amended
theorem. -/
theorem route_confidence_provenance_witness :
    (sendMessage ⟨"help", some "sid", some true, none⟩ "f"
      ⟨CallOutcome.thrown,
       CallOutcome.returned ⟨Status.success, some ⟨"answer", some 7⟩⟩,
       CallOutcome.thrown⟩).1.data =
      some ⟨"answer", Source.dataset, "sid", some 7⟩ ∧
    ((some 7 : Option Int).isSome = true →
      (⟨"answer", Source.dataset, "sid", some 7⟩ : HybridChatResponse).source =
        Source.dataset) :=
  ⟨by decide,
   (route_confidence_provenance ⟨"help", some "sid", some true, none⟩ "f"
     ⟨CallOutcome.thrown,
      CallOutcome.returned ⟨Status.success, some ⟨"answer", some 7⟩⟩,
      CallOutcome.thrown⟩
     ⟨"answer", Source.dataset, "sid", some 7⟩ (by decide)).1⟩

/-- C6: `healthCheck` reports `hybrid_mode` exactly when both probes
succeed, and each per-backend flag equals that backend's own probe
outcome, so neither probe influences the other's reported flag. -/
theorem healthCheck_hybrid_mode_iff (d g : Settled (ApiResp Unit)) :
    ((healthCheck d g).data.hybrid_mode = true ↔
      probeOk d = true ∧ probeOk g = true) ∧
    (healthCheck d g).data.dataset_backend = probeOk d ∧
    (healthCheck d g).data.gemini_api = probeOk g := by
  cases hd : probeOk d <;> cases hg : probeOk g <;>
    simp [healthCheck, hd, hg]

/-- C7: the support classifier accepts a message exactly when its
lowercased text contains one of the nineteen support keywords as a
substring. -/
theorem isCustomerSupportQuery_iff_keyword_occurs (m : String) :
    isCustomerSupportQuery m = true ↔
      ∃ k, k ∈ (["help", "support", "problem", "issue", "error", "bug",
        "complaint", "refund", "return", "cancel", "billing", "payment",
        "account", "login", "password", "reset", "contact", "phone",
        "email"] : List String) ∧
        ∃ a b : List Char, (toLowerCase m).data = a ++ k.data ++ b := by
  unfold isCustomerSupportQuery supportKeywords
  rw [List.any_eq_true]
  constructor
  · rintro ⟨k, hk, hc⟩
    exact ⟨k, hk, (strContains_iff _ _).mp hc⟩
  · rintro ⟨k, hk, hab⟩
    exact ⟨k, hk, (strContains_iff _ _).mpr hab⟩

/-- C8: replies carry the generated token when `session_id` is absent or
the empty string, and echo every non-empty `session_id` unchanged. -/
theorem route_session_id_echo (req : HybridChatRequest) (fresh : String)
    (env : Env) (resp : HybridChatResponse)
    (h : (sendMessage req fresh env).1.data = some resp) :
    ((req.session_id = none ∨ req.session_id = some "") →
      resp.session_id = fresh) ∧
    (∀ s, req.session_id = some s → s ≠ "" → resp.session_id = s) := by
  obtain ⟨hsid, -, -⟩ := sendMessage_data_char req fresh env resp h
  constructor
  · rintro (h0 | h0) <;> rw [hsid, sessionIdOf, h0] <;> simp
  · intro s hs hne
    rw [hsid, sessionIdOf, hs]
    simp [hne]

/-- C8 (witness): an empty `session_id` is replaced by the fresh token in
the concrete run, certified through the theorem. -/
theorem route_session_id_echo_witness :
    (sendMessage ⟨"hi", some "", none, none⟩ "tok"
      ⟨CallOutcome.returned ⟨Status.success, some ⟨"a"⟩⟩,
       CallOutcome.thrown, CallOutcome.thrown⟩).1.data =
      some ⟨"a", Source.gemini, "tok", none⟩ ∧
    (⟨"a", Source.gemini, "tok", none⟩ : HybridChatResponse).session_id =
      "tok" :=
  ⟨by decide,
   (route_session_id_echo ⟨"hi", some "", none, none⟩ "tok"
     ⟨CallOutcome.returned ⟨Status.success, some ⟨"a"⟩⟩,
      CallOutcome.thrown, CallOutcome.thrown⟩
     ⟨"a", Source.gemini, "tok", none⟩ (by decide)).1 (Or.inr rfl)⟩

/-- C9: every dataset call issued by the router forwards
`model_type = enhanced` when the request leaves it absent, and forwards
an explicitly supplied `model_type` unchanged. -/
theorem route_dataset_model_type_default (req : HybridChatRequest)
    (fresh : String) (env : Env) (m s : String) (mt : ModelType)
    (h : Call.dataset m s mt ∈ (sendMessage req fresh env).2) :
    (req.model_type = none → mt = ModelType.enhanced) ∧
    (∀ t, req.model_type = some t → mt = t) := by
  have hmt : mt = modelTypeOf req := by
    cases hu : useDataset req <;> cases hs : isCustomerSupportQuery req.message <;>
      cases hG : tryGemini (sessionIdOf req fresh) env.gemini1 <;>
      cases hD : tryDataset (sessionIdOf req fresh) env.dataset <;>
        simp [sendMessage, step2, hu, hs, hG, hD] at h <;> tauto
  constructor
  · intro h0
    rw [hmt, modelTypeOf, h0]
    rfl
  · intro t ht
    rw [hmt, modelTypeOf, ht]
    rfl

/-- C9 (witness): a dataset-first run with absent `model_type` issues the
dataset call with `enhanced`, certified through the theorem. -/
theorem route_dataset_model_type_default_witness :
    Call.dataset "help" "sid" ModelType.enhanced ∈
      (sendMessage ⟨"help", some "sid", some true, none⟩ "f"
        ⟨CallOutcome.thrown, CallOutcome.thrown, CallOutcome.thrown⟩).2 ∧
    ((⟨"help", some "sid", some true, none⟩ : HybridChatRequest).model_type =
        none → ModelType.enhanced = ModelType.enhanced) :=
  ⟨by decide,
   (route_dataset_model_type_default ⟨"help", some "sid", some true, none⟩ "f"
     ⟨CallOutcome.thrown, CallOutcome.thrown, CallOutcome.thrown⟩
     "help" "sid" ModelType.enhanced (by decide)).1⟩

/-- C10: the top-level `healthCheck` status is success exactly when at
least one probe succeeds, and error exactly when both fail. -/
theorem healthCheck_status_iff (d g : Settled (ApiResp Unit)) :
    ((healthCheck d g).status = Status.success ↔
      (probeOk d = true ∨ probeOk g = true)) ∧
    ((healthCheck d g).status = Status.error ↔
      (probeOk d = false ∧ probeOk g = false)) := by
  cases hd : probeOk d <;> cases hg : probeOk g <;>
    simp [healthCheck, hd, hg]

end HybridChat
